import Mathlib

/-!
Verification of the Alta parking monitor (`src/monitor/parking.js` and the
`start-monitor` IPC handler in `src/main/index.js`) against its
natural-language specification.

The JavaScript is shallowly embedded: pure computations (config validation,
text classification, day matching) become Lean functions over `String` /
`List Char`; the browser-driven attempt `checkAndBook` becomes a function of
an explicit environment describing what the live page shows at each step;
the poll loop `startMonitor` becomes a function of a per-iteration
environment (attempt outcome, moment at which the abort signal arrives);
the cross-process interleaving of two `start-monitor` IPC calls becomes a
happens-before relation on event traces.
-/

/-! ## JavaScript string primitives

`\s` in a JavaScript regex and `String.prototype.trim` both use the JS
whitespace class.  We model its common members (space, tab, LF, VT, FF, CR,
NBSP); the remaining Unicode space separators never occur in the phrase
sets or inputs considered here. -/

def isJsWs (c : Char) : Bool :=
  c = ' ' || c = '\t' || c = '\n' || c = '\x0b' || c = '\x0c' || c = '\r' || c = ' '

/-- `String.prototype.trim` on the character list. -/
def trimL (l : List Char) : List Char :=
  (((l.dropWhile isJsWs).reverse).dropWhile isJsWs).reverse

/-- `text.trim()` (parking.js line 171). -/
def jsTrim (s : String) : String :=
  String.mk (trimL s.data)

/-- `lit` is a prefix of `s` (character-exact). -/
def isPrefixB : List Char → List Char → Bool
  | [], _ => true
  | _ :: _, [] => false
  | a :: as, b :: bs => a = b && isPrefixB as bs

/-- Strip the literal `lit` from the front of `s`, if present. -/
def stripL : List Char → List Char → Option (List Char)
  | [], s => some s
  | _ :: _, [] => none
  | a :: as, b :: bs => if a = b then stripL as bs else none

/-- `pat` occurs as a contiguous substring of `s`
(JavaScript `String.prototype.includes` / an unanchored literal regex). -/
def hasInfixB (pat : List Char) : List Char → Bool
  | [] => pat.isEmpty
  | c :: cs => isPrefixB pat (c :: cs) || hasInfixB pat cs

/-- `s.includes(pat)` (case-sensitive, as in JS). -/
def strContains (s pat : String) : Bool :=
  hasInfixB pat.data s.data

/-- The predicate `p` holds at some suffix position of `s`
(unanchored regex search). -/
def anyPos (p : List Char → Bool) : List Char → Bool
  | [] => p []
  | c :: cs => p (c :: cs) || anyPos p cs

/-- Lower-case the characters of a string; matching lowered text against
lower-case literals models the `/i` regex flag. -/
def lowerL (s : String) : List Char :=
  s.data.map Char.toLower

/-- Skip `\s*` (greedy; all following literal tokens in the patterns below
start with a non-whitespace character, so greedy skipping is exact). -/
def dropWs (s : List Char) : List Char :=
  s.dropWhile isJsWs

/-! ## The sold-out / confirmation pattern set (parking.js lines 209-215, 257)

Each JS regex is embedded as a matcher over an already lower-cased
character list. -/

/-- `/sold\s*out/i` matches at the start of `s`. -/
def soldOutHere (s : List Char) : Bool :=
  match stripL "sold".data s with
  | none => false
  | some r => (stripL "out".data (dropWs r)).isSome

/-- `/no\s*(spots?|parking)\s*available/i` matches at the start of `s`.
The alternation tries `spots?` (greedy optional `s`) then `parking`. -/
def noAvailHere (s : List Char) : Bool :=
  match stripL "no".data s with
  | none => false
  | some r =>
    let mid := dropWs r
    let afterMid : Option (List Char) :=
      match stripL "spot".data mid with
      | some r2 =>
        (match stripL "s".data r2 with
         | some r3 => some r3
         | none => some r2)
      | none => stripL "parking".data mid
    match afterMid with
    | none => false
    | some r4 => (stripL "available".data (dropWs r4)).isSome

/-- `/fully\s*booked/i` matches at the start of `s`. -/
def fullyBookedHere (s : List Char) : Bool :=
  match stripL "fully".data s with
  | none => false
  | some r => (stripL "booked".data (dropWs r)).isSome

/-- `/thank\s*you/i` matches at the start of `s`. -/
def thankYouHere (s : List Char) : Bool :=
  match stripL "thank".data s with
  | none => false
  | some r => (stripL "you".data (dropWs r)).isSome

/-- The sold-out scan over the full page text (parking.js lines 209-223):
the five patterns are tried in source order and the `||` short-circuits at
the first pattern that matches, exactly like the `for` loop with its early
`return`. -/
def soldOutTextMatch (s : String) : Bool :=
  anyPos soldOutHere (lowerL s) ||
  anyPos noAvailHere (lowerL s) ||
  anyPos fullyBookedHere (lowerL s) ||
  hasInfixB "unavailable".data (lowerL s) ||
  hasInfixB "waitlist".data (lowerL s)

/-- `/confirm|success|booked|reserved|thank\s*you/i.test(successText)`
(parking.js line 257). -/
def successTextMatch (s : String) : Bool :=
  hasInfixB "confirm".data (lowerL s) ||
  hasInfixB "success".data (lowerL s) ||
  hasInfixB "booked".data (lowerL s) ||
  hasInfixB "reserved".data (lowerL s) ||
  anyPos thankYouHere (lowerL s)

/-! ## Status events -/

/-- The status-event kinds passed to `onStatus` (parking.js line 21). -/
inductive EvType
  | checking
  | monitoring
  | available
  | success
  | error
deriving DecidableEq

/-- One `onStatus(type, message)` call. -/
structure StatusEvent where
  type : EvType
  message : String
deriving DecidableEq

/-! ## MonitorConfig and validation (parking.js lines 25-35) -/

/-- The monitor configuration.  All five credential/date fields are JS
strings; `intervalMs` a number; `chromiumPath` optional. -/
structure MonitorConfig where
  email : String
  password : String
  seasonPass : String
  licensePlate : String
  targetDate : String
  intervalMs : Nat
  chromiumPath : Option String

/-- The validation loop (lines 29-35) iterates `Object.entries` of
`{ email, password, seasonPass, licensePlate, targetDate }` in insertion
order and returns at the first falsy value.  For a JS string, `!value` is
true exactly when the string is empty — a whitespace-only string is truthy
and passes. -/
def firstMissing (c : MonitorConfig) : Option String :=
  if c.email = "" then some "email"
  else if c.password = "" then some "password"
  else if c.seasonPass = "" then some "seasonPass"
  else if c.licensePlate = "" then some "licensePlate"
  else if c.targetDate = "" then some "targetDate"
  else none

/-- `Math.round(ms / 60000)` used in status messages (lines 37, 51).
Exact for the integer arithmetic involved. -/
def roundMinOf (ms : Nat) : Nat :=
  (2 * ms + 60000) / 120000

def missingEv (k : String) : StatusEvent :=
  ⟨.error, "Missing required config: " ++ k⟩

def startEv (targetDate : String) (ms : Nat) : StatusEvent :=
  ⟨.monitoring, "Starting monitor for " ++ targetDate ++ " (checking every "
    ++ toString (roundMinOf ms) ++ " min)"⟩

def successEv (targetDate : String) : StatusEvent :=
  ⟨.success, "Successfully booked parking for " ++ targetDate ++ "!"⟩

def nextCheckEv (ms : Nat) : StatusEvent :=
  ⟨.monitoring, "Next check in " ++ toString (roundMinOf ms) ++ " minute(s)..."⟩

def checkErrEv (m : String) : StatusEvent :=
  ⟨.error, "Error during check: " ++ m⟩

def stopEv : StatusEvent :=
  ⟨.monitoring, "Monitor stopped"⟩

/-! ## The booking attempt `checkAndBook` (parking.js lines 93-276)

The attempt drives a live web page, so it is embedded as a function of an
explicit environment describing what the page shows at each step.  The
calendar can change after each "next month" click, so the environment
carries one `CalendarView` per loop iteration. -/

/-- What one monthly calendar view shows for the target date:
whether the structured selector `[data-date=...]`/`[aria-label*=...]`
finds a cell (line 161), the visible texts of the candidate day elements
for the fallback lookup (line 166), the `disabled` and `class` attributes
of the found cell (lines 180-181), and whether a "next month" affordance
is present (line 197). -/
structure CalendarView where
  dateBySelector : Bool
  dayTexts : List String
  disabledAttr : Option String
  classAttr : Option String
  nextButton : Bool
deriving DecidableEq, Inhabited

/-- The day-number fallback (lines 169-175): scan the candidate elements in
page order and pick the first whose trimmed text is exactly the day token. -/
def fallbackPick (day : String) (texts : List String) : Option String :=
  texts.find? (fun t => jsTrim t == day)

/-- The target date is found on this view, by structured selector or by the
exact-day fallback (lines 161-176). -/
def dateCellMatch (day : String) (v : CalendarView) : Bool :=
  v.dateBySelector || (fallbackPick day v.dayTexts).isSome

/-- `getAttribute` returns `null` or a string; `if (isDisabled ...)` treats
the empty string as falsy. -/
def jsTruthy (o : Option String) : Bool :=
  match o with
  | none => false
  | some s => !(s == "")

/-- The found cell carries a disabled / sold-out marker (line 183):
a truthy `disabled` attribute, or a class list containing `disabled` or
`sold-out` (case-sensitive `includes`). -/
def soldOutAttrs (v : CalendarView) : Bool :=
  jsTruthy v.disabledAttr ||
  strContains (v.classAttr.getD "") "disabled" ||
  strContains (v.classAttr.getD "") "sold-out"

/-- `new Date(targetDate + 'T12:00:00').getDate()` for an ISO
`YYYY-MM-DD` string: the day-of-month, i.e. characters 8-9 read as a
number (line 165; the `T12:00:00` suffix pins local noon so no timezone
shift changes the day). -/
def dayNumber (targetDate : String) : Nat :=
  ((targetDate.data.drop 8).take 2).foldl (fun a c => a * 10 + (c.toNat - 48)) 0

/-- `String(targetDay)` (line 171): the day token the fallback compares
against — leading zero gone, e.g. `"2025-01-05"` gives `"5"`. -/
def dayToken (targetDate : String) : String :=
  toString (dayNumber targetDate)

/-- Result of the calendar-navigation loop (lines 153-203). -/
inductive CalOut
  | soldOutFound
  | clicked
  | exhausted
deriving DecidableEq

/-- The calendar loop: `while (attempts < 12)`.  Each iteration consults the
current view; a found cell either carries sold-out markers (early return,
line 186) or is clicked (`break`, line 193); otherwise the "next month"
affordance is clicked and the next iteration sees the next view.
Exhausting the fuel falls through (`.exhausted`). -/
def calRun (day : String) : Nat → List CalendarView → CalOut
  | 0, _ => .exhausted
  | fuel + 1, vs =>
    let v := vs.headD default
    if dateCellMatch day v then
      if soldOutAttrs v then .soldOutFound else .clicked
    else calRun day fuel vs.tail

/-- Environment of one `checkAndBook` invocation: which steps throw, and
what the page shows.  `setupThrows` is a throw in `browser.newContext()` /
`context.newPage()` (lines 119-120, outside the try); `stepThrows` is a
throw at the first step inside the try (`page.goto`, line 124), routed to
the catch (lines 272-275). -/
structure CheckEnv where
  launchThrows : Bool
  fallbackThrows : Bool
  setupThrows : Bool
  stepThrows : Bool
  loginAffordance : Bool
  views : List CalendarView
  pageText : String
  bookButton : Bool
  passInput : Bool
  plateInput : Bool
  confirmButton : Bool
  confirmText : String
deriving DecidableEq

/-- The value returned by a completed `checkAndBook`
(`{ available, booked, status? }`). -/
structure BookResult where
  available : Bool
  booked : Bool
  status : Option String
deriving DecidableEq

/-- `checkAndBook` either returns a `BookResult` or lets an exception
propagate to the caller. -/
inductive CheckResult
  | ok (r : BookResult)
  | thrown
deriving DecidableEq

/-- Observable outcome of one attempt: the result, whether a browser was
successfully launched, whether `browser.close()` was called before the
attempt returned/threw, and the emitted status events. -/
structure CABOut where
  res : CheckResult
  launched : Bool
  closed : Bool
  events : List StatusEvent
deriving DecidableEq

def fallbackEv : StatusEvent :=
  ⟨.error, "Failed to launch bundled Chromium, trying system browser..."⟩

/-- Lines 205-270: global sold-out text scan, booking-affordance lookup,
form fill, confirm click and confirmation classification.  Reached after
the calendar loop broke or exhausted; the browser is closed on every path
here. -/
def checkAndBookPost (cfg : MonitorConfig) (env : CheckEnv)
    (evs : List StatusEvent) : CABOut :=
  if soldOutTextMatch env.pageText then
    ⟨.ok ⟨false, false, some "sold_out"⟩, true, true,
      evs ++ [⟨.checking, cfg.targetDate ++ ": No parking available"⟩]⟩
  else if env.bookButton then
    let evs := evs
      ++ [⟨.available, "SPOT AVAILABLE for " ++ cfg.targetDate ++ "! Attempting to book..."⟩]
      ++ (if env.passInput then [⟨.available, "Entered season pass..."⟩] else [])
      ++ (if env.plateInput then [⟨.available, "Entered license plate..."⟩] else [])
    if env.confirmButton && successTextMatch env.confirmText then
      ⟨.ok ⟨true, true, none⟩, true, true, evs⟩
    else
      ⟨.ok ⟨true, false, none⟩, true, true,
        evs ++ [⟨.error, "Spot was available but auto-booking may have failed. Check manually!"⟩]⟩
  else
    ⟨.ok ⟨false, false, some "not_found"⟩, true, true,
      evs ++ [⟨.checking, "No parking available for " ++ cfg.targetDate⟩]⟩

/-- The part of `checkAndBook` after a browser was successfully launched
(lines 119-275).  `newContext`/`newPage` sit before the try block: a throw
there propagates with the browser left open.  A throw inside the try is
caught, the browser closed, and the exception rethrown. -/
def checkAndBookLaunched (cfg : MonitorConfig) (env : CheckEnv)
    (evs : List StatusEvent) : CABOut :=
  if env.setupThrows then ⟨.thrown, true, false, evs⟩
  else if env.stepThrows then ⟨.thrown, true, true, evs⟩
  else
    let evs := evs
      ++ (if env.loginAffordance then [⟨.checking, "Logging in..."⟩] else [])
      ++ [⟨.checking, "Looking for target date..."⟩]
    match calRun (dayToken cfg.targetDate) 12 env.views with
    | .soldOutFound =>
      ⟨.ok ⟨false, false, some "sold_out"⟩, true, true,
        evs ++ [⟨.checking, cfg.targetDate ++ " found but SOLD OUT"⟩]⟩
    | .clicked =>
      checkAndBookPost cfg env
        (evs ++ [⟨.checking, "Found " ++ cfg.targetDate ++ " - selecting..."⟩])
    | .exhausted => checkAndBookPost cfg env evs

/-- One `checkAndBook(config, onStatus)` invocation (lines 93-276).
Launch (lines 106-117): the primary launch may throw; with a configured
`chromiumPath` one fallback launch without the path is tried; a fallback
failure (or a primary failure without a path) propagates with no browser
launched. -/
def checkAndBook (cfg : MonitorConfig) (env : CheckEnv) : CABOut :=
  let ev0 := [⟨EvType.checking, "Checking availability for " ++ cfg.targetDate ++ "..."⟩]
  if env.launchThrows then
    match cfg.chromiumPath with
    | none => ⟨.thrown, false, false, ev0⟩
    | some _ =>
      if env.fallbackThrows then ⟨.thrown, false, false, ev0 ++ [fallbackEv]⟩
      else checkAndBookLaunched cfg env (ev0 ++ [fallbackEv])
  else checkAndBookLaunched cfg env ev0

/-! ## The poll loop `startMonitor` (parking.js lines 25-67) and
`waitWithAbort` (lines 72-88)

The loop's externally-determined data — the outcome of each attempt and
the moment at which the single abort request arrives — form a
per-iteration environment.  The abort signal is monotone: once it fires
the loop threads an `aborted` flag, so a signal arriving during one
iteration's sleep is observed at the next loop-top check. -/

/-- Outcome of one `checkAndBook` call as seen by the loop: a returned
value (of which the loop reads only `.booked`) or a thrown error with its
message. -/
inductive AttemptRes
  | ok (booked : Bool)
  | throws (msg : String)
deriving DecidableEq

/-- When, relative to one loop iteration, the external abort request
arrives (if it has not already). -/
inductive AbortArrival
  | beforeAttempt
  | duringAttempt
  | duringSleep (t : Nat)
  | never
deriving DecidableEq

/-- Environment of one loop iteration: the abort-arrival moment, the
attempt outcome, and the status events the attempt itself emitted. -/
structure IterEnv where
  arrival : AbortArrival
  attempt : AttemptRes
  attemptEvents : List StatusEvent
deriving DecidableEq

/-- How a run of the loop ended.  `ranOut` is a model artifact: the supplied
environment list was exhausted with the loop still running. -/
inductive RunRes
  | bookedRun
  | stopped
  | ranOut
  | invalid
deriving DecidableEq

/-- Observable outcome of `startMonitor`: the returned `booked` flag, how
the loop ended, how many times `checkAndBook` was invoked, the emitted
events, and the duration of each `waitWithAbort` sleep. -/
structure MOut where
  booked : Bool
  res : RunRes
  attempts : Nat
  events : List StatusEvent
  sleeps : List Nat
deriving DecidableEq

/-- `waitWithAbort(ms, signal)` (lines 72-88) as the elapsed time until its
promise resolves: immediately if the signal is already aborted, at the
abort moment `t` if the signal fires during the wait (the abort handler
clears the timer and resolves at once), else after the full `ms`. -/
def waitWithAbort (ms : Nat) (abortedAlready : Bool) (abortAt : Option Nat) : Nat :=
  if abortedAlready then 0
  else
    match abortAt with
    | some t => min t ms
    | none => ms

/-- The `while (!signal.aborted)` loop (lines 40-63) plus the trailing
"Monitor stopped" event and return (lines 65-66).  The boolean argument is
the abort flag as observed at the loop-top check.  Per iteration: a booked
result returns `{ booked: true }` at once (lines 44-47, checked before the
abort re-check at line 49); otherwise the loop breaks if the signal fired
during the attempt, or sleeps `waitWithAbort` and continues — an abort
during the sleep resolves the sleep early and is observed at the next
loop-top check. -/
def monitorLoop (cfg : MonitorConfig) : Bool → List IterEnv → MOut
  | true, _ => ⟨false, .stopped, 0, [stopEv], []⟩
  | false, [] => ⟨false, .ranOut, 0, [], []⟩
  | false, e :: rest =>
    match e.arrival, e.attempt with
    | .beforeAttempt, _ => ⟨false, .stopped, 0, [stopEv], []⟩
    | _, .ok true =>
      ⟨true, .bookedRun, 1, e.attemptEvents ++ [successEv cfg.targetDate], []⟩
    | .duringAttempt, .ok false => ⟨false, .stopped, 1, e.attemptEvents ++ [stopEv], []⟩
    | .duringAttempt, .throws _ => ⟨false, .stopped, 1, e.attemptEvents ++ [stopEv], []⟩
    | .duringSleep t, .ok false =>
      let r := monitorLoop cfg true rest
      ⟨r.booked, r.res, r.attempts + 1,
        e.attemptEvents ++ [nextCheckEv cfg.intervalMs] ++ r.events,
        waitWithAbort cfg.intervalMs false (some t) :: r.sleeps⟩
    | .duringSleep t, .throws m =>
      let r := monitorLoop cfg true rest
      ⟨r.booked, r.res, r.attempts + 1,
        e.attemptEvents ++ [checkErrEv m] ++ r.events,
        waitWithAbort cfg.intervalMs false (some t) :: r.sleeps⟩
    | .never, .ok false =>
      let r := monitorLoop cfg false rest
      ⟨r.booked, r.res, r.attempts + 1,
        e.attemptEvents ++ [nextCheckEv cfg.intervalMs] ++ r.events,
        waitWithAbort cfg.intervalMs false none :: r.sleeps⟩
    | .never, .throws m =>
      let r := monitorLoop cfg false rest
      ⟨r.booked, r.res, r.attempts + 1,
        e.attemptEvents ++ [checkErrEv m] ++ r.events,
        waitWithAbort cfg.intervalMs false none :: r.sleeps⟩

/-- `startMonitor(config, onStatus, signal)` (lines 25-67): validate the
five required fields (returning `{ booked: false }` with a single error
event at the first missing one), emit the starting event, then run the
loop.  `ab0` is `signal.aborted` at entry. -/
def startMonitor (cfg : MonitorConfig) (ab0 : Bool) (envs : List IterEnv) : MOut :=
  match firstMissing cfg with
  | some k => ⟨false, .invalid, 0, [missingEv k], []⟩
  | none =>
    let r := monitorLoop cfg ab0 envs
    { r with events := startEv cfg.targetDate cfg.intervalMs :: r.events }

/-- An iteration after which the loop proceeds to the next iteration with
the abort flag still clear: no abort arrives and the attempt does not
book. -/
def continuesOn (e : IterEnv) : Bool :=
  (match e.arrival with
   | .never => true
   | _ => false) &&
  (match e.attempt with
   | .ok true => false
   | _ => true)

/-! ## The `start-monitor` IPC handler (main/index.js lines 238-296)

Two back-to-back `start-monitor` calls are modelled by their
happens-before relation on primitive events.  The handler body runs
sequentially on the main thread: the second call aborts the existing
controller (lines 240-242), creates a fresh controller (line 245), and
invokes `startMonitor` fire-and-forget (line 275) — it never awaits the
prior run's promise, and `checkAndBook` receives no signal, so an
in-flight attempt of run 1 continues regardless. -/

/-- Primitive events of the two-call scenario: the two handler executions
(`create` a controller, `launch` a monitor run, `abort1` the first
controller), run 1 opening/closing its browser and its loop observing the
abort and stopping, and run 2 opening its browser. -/
inductive PEv
  | create1
  | launch1
  | abort1
  | create2
  | launch2
  | r1Open
  | r1Close
  | r1Stop
  | r2Open
deriving DecidableEq

/-- Index of the first occurrence of `a` (list length if absent). -/
def idxOf : List PEv → PEv → Nat
  | [], _ => 0
  | a :: as, b => if a = b then 0 else idxOf as b + 1

/-- `a` occurs strictly before `b` in the trace. -/
def isBefore (tr : List PEv) (a b : PEv) : Bool :=
  decide (idxOf tr a < idxOf tr b)

def allPEv : List PEv :=
  [.create1, .launch1, .abort1, .create2, .launch2, .r1Open, .r1Close, .r1Stop, .r2Open]

/-- The happens-before constraints the code imposes on a complete trace of
the scenario (first call, run 1 begins an attempt, second call, run 2
begins, run 1 finishes its attempt and stops):
* main-thread program order: call 1 creates its controller and launches
  run 1; call 2 then aborts controller 1 (line 241), creates controller 2
  (line 245) and launches run 2 (line 275);
* run 1 opens its browser only after being launched, closes it at the end
  of the attempt, and its loop observes the abort (hence stops) only after
  the attempt returns and only after `abort1`;
* run 2 opens its browser only after being launched.
No constraint places `r1Stop` (or even `r1Close`) before `launch2` or
`r2Open`: the handler does not wait for the prior loop to stop. -/
def validTrace (tr : List PEv) : Bool :=
  allPEv.all (· ∈ tr) &&
  isBefore tr .create1 .launch1 &&
  isBefore tr .launch1 .abort1 &&
  isBefore tr .abort1 .create2 &&
  isBefore tr .create2 .launch2 &&
  isBefore tr .launch1 .r1Open &&
  isBefore tr .r1Open .r1Close &&
  isBefore tr .r1Close .r1Stop &&
  isBefore tr .abort1 .r1Stop &&
  isBefore tr .launch2 .r2Open

/-! ## Concrete fixtures used by witnesses and counterexamples -/

/-- A well-formed configuration (all five required fields non-empty). -/
def cfg0 : MonitorConfig :=
  ⟨"user@example.com", "hunter2", "SP123", "ABC123", "2025-01-05", 60000, none⟩

/-- A configuration whose email is whitespace-only (truthy in JS). -/
def cfgWs : MonitorConfig :=
  ⟨" ", "hunter2", "SP123", "ABC123", "2025-01-05", 60000, none⟩

/-- A loop iteration with no abort and an unbooked attempt. -/
def iterNoBook : IterEnv := ⟨.never, .ok false, []⟩

/-- A loop iteration with no abort whose attempt books. -/
def iterBook : IterEnv := ⟨.never, .ok true, []⟩

/-! ## Helper lemmas about `checkAndBook` -/

/-- The result of the post-calendar phase depends only on the page
environment, not on the accumulated events. -/
theorem checkAndBookPost_res (cfg : MonitorConfig) (env : CheckEnv)
    (evs : List StatusEvent) :
    (checkAndBookPost cfg env evs).res =
      (if soldOutTextMatch env.pageText = true then
         CheckResult.ok ⟨false, false, some "sold_out"⟩
       else if env.bookButton = true then
         (if (env.confirmButton && successTextMatch env.confirmText) = true then
            CheckResult.ok ⟨true, true, none⟩
          else CheckResult.ok ⟨true, false, none⟩)
       else CheckResult.ok ⟨false, false, some "not_found"⟩) := by
  by_cases h1 : soldOutTextMatch env.pageText = true <;>
    by_cases h2 : env.bookButton = true <;>
    by_cases h3 : (env.confirmButton && successTextMatch env.confirmText) = true <;>
    simp [checkAndBookPost, h1, h2, h3]

/-- When the launch succeeds, no step throws, and the calendar loop does
not return sold-out, the attempt's result is that of the post-calendar
phase. -/
theorem checkAndBook_res_fallthrough (cfg : MonitorConfig) (env : CheckEnv)
    (h1 : env.launchThrows = false) (h2 : env.setupThrows = false)
    (h3 : env.stepThrows = false)
    (h4 : calRun (dayToken cfg.targetDate) 12 env.views ≠ CalOut.soldOutFound) :
    (checkAndBook cfg env).res = (checkAndBookPost cfg env []).res := by
  rcases hcal : calRun (dayToken cfg.targetDate) 12 env.views with _ | _ | _
  · exact absurd hcal h4
  · simp [checkAndBook, checkAndBookLaunched, h1, h2, h3, hcal,
      checkAndBookPost_res]
  · simp [checkAndBook, checkAndBookLaunched, h1, h2, h3, hcal,
      checkAndBookPost_res]

/-! ## Helper lemmas about the calendar loop -/

theorem headD_eq_getD (vs : List CalendarView) :
    vs.headD default = vs.getD 0 default := by
  cases vs <;> rfl

theorem tail_getD (vs : List CalendarView) (i : Nat) :
    vs.tail.getD i default = vs.getD (i + 1) default := by
  cases vs <;> rfl

/-- If the target date is absent from every view the loop can reach, the
loop exhausts its fuel. -/
theorem calRun_exhausted_of_absent (day : String) :
    ∀ (fuel : Nat) (vs : List CalendarView),
      (∀ i, i < fuel → dateCellMatch day (vs.getD i default) = false) →
      calRun day fuel vs = CalOut.exhausted := by
  intro fuel
  induction fuel with
  | zero => intro vs _; rfl
  | succ n ih =>
    intro vs h
    have h0 := h 0 (Nat.succ_pos n)
    rw [← headD_eq_getD] at h0
    unfold calRun
    simp only [h0, Bool.false_eq_true, if_false]
    apply ih
    intro i hi
    rw [tail_getD]
    exact h (i + 1) (Nat.succ_lt_succ hi)

/-- The loop only ever consults its first `fuel` views. -/
theorem calRun_take (day : String) :
    ∀ (fuel : Nat) (vs : List CalendarView),
      calRun day fuel vs = calRun day fuel (vs.take fuel) := by
  intro fuel
  induction fuel with
  | zero => intro vs; rfl
  | succ n ih =>
    intro vs
    cases vs with
    | nil => simp
    | cons a as =>
      rw [List.take_succ_cons]
      unfold calRun
      by_cases h : dateCellMatch day a = true
      · simp only [List.headD_cons, List.tail_cons, h, if_true]
      · simp only [List.headD_cons, List.tail_cons, if_neg h]
        exact ih as

/-! ## C2 — browser closed on every exit path -/

/-- An invocation in which `chromium.launch` succeeds and
`browser.newContext()` then throws (the browser process died right after
launching). -/
def c2Env : CheckEnv :=
  ⟨false, false, true, false, false, [], "", false, false, false, false, ""⟩

/-- C2: refuted by the code — `browser.newContext()` / `context.newPage()`
(parking.js lines 119-120) run before the try block whose catch closes the
browser, so an exception there propagates out of `checkAndBook` with the
launched browser never closed. -/
theorem c2_browser_leak :
    (checkAndBook cfg0 c2Env).launched = true ∧
    (checkAndBook cfg0 c2Env).closed = false ∧
    (checkAndBook cfg0 c2Env).res = CheckResult.thrown := by
  decide

/-! ## C3 — validation of the five required fields -/

theorem firstMissing_eq_none (cfg : MonitorConfig) :
    firstMissing cfg = none ↔
      cfg.email ≠ "" ∧ cfg.password ≠ "" ∧ cfg.seasonPass ≠ "" ∧
      cfg.licensePlate ≠ "" ∧ cfg.targetDate ≠ "" := by
  unfold firstMissing
  by_cases h1 : cfg.email = "" <;> by_cases h2 : cfg.password = "" <;>
    by_cases h3 : cfg.seasonPass = "" <;> by_cases h4 : cfg.licensePlate = "" <;>
    by_cases h5 : cfg.targetDate = "" <;> simp [h1, h2, h3, h4, h5]

/-- C3 counterexample: a whitespace-only `email` is truthy in JS, so the
validation loop (`if (!value)`, line 31) passes it and the monitor does
reach an attempt — `checkAndBook` is invoked once here, with no error
event emitted by validation. -/
theorem c3_whitespace_passes_validation :
    firstMissing cfgWs = none ∧
    (startMonitor cfgWs false [iterNoBook]).attempts = 1 := by
  decide

/-- C3 (amended): for every config with one of the five required fields
EMPTY (JS-falsy), `startMonitor` makes no attempt, emits exactly one
(error) event naming the first missing field, and returns
`{ booked: false }`. -/
theorem c3_empty_field_rejected (cfg : MonitorConfig) (ab0 : Bool)
    (envs : List IterEnv)
    (h : cfg.email = "" ∨ cfg.password = "" ∨ cfg.seasonPass = "" ∨
      cfg.licensePlate = "" ∨ cfg.targetDate = "") :
    (startMonitor cfg ab0 envs).attempts = 0 ∧
    (startMonitor cfg ab0 envs).booked = false ∧
    ∃ k, (startMonitor cfg ab0 envs).events = [missingEv k] := by
  rcases hFM : firstMissing cfg with _ | k
  · rw [firstMissing_eq_none] at hFM
    tauto
  · simp [startMonitor, hFM]

theorem c3_empty_field_rejected_witness :
    (startMonitor ⟨"", "hunter2", "SP123", "ABC123", "2025-01-05", 60000, none⟩
        false [iterNoBook]).attempts = 0 ∧
    (startMonitor ⟨"", "hunter2", "SP123", "ABC123", "2025-01-05", 60000, none⟩
        false [iterNoBook]).booked = false ∧
    ∃ k, (startMonitor ⟨"", "hunter2", "SP123", "ABC123", "2025-01-05", 60000, none⟩
        false [iterNoBook]).events = [missingEv k] :=
  c3_empty_field_rejected _ false [iterNoBook] (Or.inl rfl)

/-! ## C6 — sold-out page-text classification -/

/-- A page whose body text carries the hyphenated phrase, with no booking
affordance. -/
def c6Env : CheckEnv :=
  ⟨false, false, false, false, false, [], "This date is sold-out.",
    false, false, false, false, ""⟩

/-- C6 counterexample: `/sold\s*out/i` requires optional WHITESPACE between
the words, so the hyphenated page text `"sold-out"` matches none of the
five patterns (lines 209-215) and the attempt classifies the page as
`not_found`, not sold out. -/
theorem c6_hyphen_not_matched :
    soldOutTextMatch "This date is sold-out." = false ∧
    (checkAndBook cfg0 c6Env).res = CheckResult.ok ⟨false, false, some "not_found"⟩ := by
  decide

/-- C6 (amended): the page-text scan is case-insensitive and
order-independent over the five whitespace-variant patterns; any one
matching pattern suffices (the scan short-circuits), and whenever the scan
matches, an attempt that reaches it returns the sold-out result.  The
hyphenated form `"sold-out"` is outside the matched set (see the
counterexample); it is only recognized as a class name on the date cell. -/
theorem c6_soldout_scan :
    (∀ cfg env, env.launchThrows = false → env.setupThrows = false →
      env.stepThrows = false →
      calRun (dayToken cfg.targetDate) 12 env.views ≠ CalOut.soldOutFound →
      soldOutTextMatch env.pageText = true →
      (checkAndBook cfg env).res = CheckResult.ok ⟨false, false, some "sold_out"⟩) ∧
    (∀ s, anyPos soldOutHere (lowerL s) = true → soldOutTextMatch s = true) ∧
    (∀ s, anyPos fullyBookedHere (lowerL s) = true → soldOutTextMatch s = true) ∧
    (∀ s, hasInfixB "waitlist".data (lowerL s) = true → soldOutTextMatch s = true) ∧
    soldOutTextMatch "Fully Booked" = true ∧
    soldOutTextMatch "FULLY BOOKED" = true ∧
    soldOutTextMatch "fully booked" = true ∧
    soldOutTextMatch "Sold Out" = true ∧
    soldOutTextMatch "SOLD OUT" = true ∧
    soldOutTextMatch "soldout" = true ∧
    soldOutTextMatch "Dates Unavailable" = true ∧
    soldOutTextMatch "No spots available" = true ∧
    soldOutTextMatch "no parking available" = true ∧
    soldOutTextMatch "Join the WAITLIST" = true := by
  refine ⟨?_, ?_, ?_, ?_, by decide, by decide, by decide, by decide, by decide,
    by decide, by decide, by decide, by decide, by decide⟩
  · intro cfg env h1 h2 h3 h4 h5
    rw [checkAndBook_res_fallthrough cfg env h1 h2 h3 h4, checkAndBookPost_res]
    simp [h5]
  · intro s h
    simp [soldOutTextMatch, h]
  · intro s h
    simp [soldOutTextMatch, h]
  · intro s h
    simp [soldOutTextMatch, h]

def c6WitnessEnv : CheckEnv :=
  ⟨false, false, false, false, false, [], "FULLY BOOKED",
    false, false, false, false, ""⟩

theorem c6_soldout_scan_witness :
    (checkAndBook cfg0 c6WitnessEnv).res = CheckResult.ok ⟨false, false, some "sold_out"⟩ :=
  c6_soldout_scan.1 cfg0 c6WitnessEnv rfl rfl rfl (by decide) (by decide)

/-! ## C7 — bounded calendar pagination -/

/-- A monthly view on which the target date (day token `"5"`) is absent:
no structured match and the only candidate day cell reads `"12"`. -/
def c7View : CalendarView := ⟨false, ["12"], none, none, true⟩

/-- A page where the date is absent from all 12 views yet a booking
affordance, a confirm affordance and a success phrase are present. -/
def c7Env : CheckEnv :=
  ⟨false, false, false, false, false, List.replicate 12 c7View,
    "Plenty of spaces", true, true, true, true,
    "Thank you, your reservation is confirmed"⟩

/-- C7 counterexample: with the target date absent from all 12 views the
pagination loop exhausts, but the code then falls through to the global
scan and booking-affordance path (lines 205-266) and can still return
`Available-Booked` — the claimed "outcome is not Available-Booked" fails. -/
theorem c7_can_book_after_exhaustion :
    dateCellMatch (dayToken cfg0.targetDate) c7View = false ∧
    calRun (dayToken cfg0.targetDate) 12 (List.replicate 12 c7View) = CalOut.exhausted ∧
    (checkAndBook cfg0 c7Env).res = CheckResult.ok ⟨true, true, none⟩ := by
  decide

/-- C7 (amended): when the target date is absent from the first 12 monthly
views the navigation loop performs exactly its 12 bounded iterations and
exhausts (no date is clicked), and the loop never consults a view beyond
the first 12 — the attempt then returns through the fall-through path
rather than looping indefinitely. -/
theorem c7_pagination_bounded :
    (∀ day vs, (∀ i, i < 12 → dateCellMatch day (vs.getD i default) = false) →
      calRun day 12 vs = CalOut.exhausted) ∧
    (∀ day vs, calRun day 12 vs = calRun day 12 (vs.take 12)) :=
  ⟨fun day vs h => calRun_exhausted_of_absent day 12 vs h,
   fun day vs => calRun_take day 12 vs⟩

theorem c7_pagination_bounded_witness :
    calRun "5" 12 (List.replicate 12 c7View) = CalOut.exhausted ∧
    calRun "5" 12 (List.replicate 30 c7View) =
      calRun "5" 12 ((List.replicate 30 c7View).take 12) :=
  ⟨c7_pagination_bounded.1 "5" (List.replicate 12 c7View) (by decide),
   c7_pagination_bounded.2 "5" (List.replicate 30 c7View)⟩

/-! ## C8 — exact day-number fallback matching -/

/-- C8: the fallback lookup (lines 169-175) selects a cell only if its
trimmed visible text equals the day token exactly
(`text.trim() === String(targetDay)`). -/
theorem c8_exact_day_only (day t : String) (texts : List String)
    (h : fallbackPick day texts = some t) : jsTrim t = day := by
  have hp := List.find?_some h
  exact eq_of_beq hp

theorem c8_exact_day_only_witness :
    fallbackPick "1" ["12", "21"] = none ∧
    jsTrim " 1 " = "1" ∧
    fallbackPick "1" ["12", "21", " 1 "] = some " 1 " :=
  ⟨by decide, c8_exact_day_only "1" " 1 " ["12", "21", " 1 "] (by decide), by decide⟩

/-! ## Helper lemmas about the poll loop -/

theorem continuesOn_spec (e : IterEnv) (h : continuesOn e = true) :
    e.arrival = AbortArrival.never ∧
      (e.attempt = AttemptRes.ok false ∨ ∃ m, e.attempt = AttemptRes.throws m) := by
  obtain ⟨arr, att, aevs⟩ := e
  cases arr <;>
    (cases att with
     | ok b => cases b <;> simp_all [continuesOn]
     | throws m => simp_all [continuesOn])

theorem waitWithAbort_full (ms : Nat) : waitWithAbort ms false none = ms := rfl

theorem waitWithAbort_cut (ms t : Nat) :
    waitWithAbort ms false (some t) = min t ms := rfl

theorem monitorLoop_step_ok (cfg : MonitorConfig) (aevs : List StatusEvent)
    (rest : List IterEnv) :
    monitorLoop cfg false (⟨.never, .ok false, aevs⟩ :: rest) =
      ⟨(monitorLoop cfg false rest).booked,
       (monitorLoop cfg false rest).res,
       (monitorLoop cfg false rest).attempts + 1,
       aevs ++ [nextCheckEv cfg.intervalMs] ++ (monitorLoop cfg false rest).events,
       cfg.intervalMs :: (monitorLoop cfg false rest).sleeps⟩ := rfl

theorem monitorLoop_step_throws (cfg : MonitorConfig) (m : String)
    (aevs : List StatusEvent) (rest : List IterEnv) :
    monitorLoop cfg false (⟨.never, .throws m, aevs⟩ :: rest) =
      ⟨(monitorLoop cfg false rest).booked,
       (monitorLoop cfg false rest).res,
       (monitorLoop cfg false rest).attempts + 1,
       aevs ++ [checkErrEv m] ++ (monitorLoop cfg false rest).events,
       cfg.intervalMs :: (monitorLoop cfg false rest).sleeps⟩ := rfl

/-- A prefix of iterations that all continue leaves the loop's final
result (and booked flag) untouched: it adds one attempt, one full-interval
sleep and some events per iteration. -/
theorem monitorLoop_skip (cfg : MonitorConfig) (pre : List IterEnv) :
    ∀ (rest : List IterEnv), (∀ x ∈ pre, continuesOn x = true) →
      ∃ evs, monitorLoop cfg false (pre ++ rest) =
        ⟨(monitorLoop cfg false rest).booked,
         (monitorLoop cfg false rest).res,
         pre.length + (monitorLoop cfg false rest).attempts,
         evs ++ (monitorLoop cfg false rest).events,
         List.replicate pre.length cfg.intervalMs ++ (monitorLoop cfg false rest).sleeps⟩ := by
  induction pre with
  | nil =>
    intro rest _
    exact ⟨[], by simp⟩
  | cons x pre ih =>
    intro rest h
    obtain ⟨harr, hatt⟩ := continuesOn_spec x (h x (List.mem_cons_self x pre))
    obtain ⟨evs, hevs⟩ := ih rest (fun y hy => h y (List.mem_cons_of_mem x hy))
    obtain ⟨arr, att, aevs⟩ := x
    simp only at harr
    subst harr
    rcases hatt with hatt | ⟨m, hatt⟩ <;> simp only at hatt <;> subst hatt
    · refine ⟨aevs ++ [nextCheckEv cfg.intervalMs] ++ evs, ?_⟩
      rw [List.cons_append, monitorLoop_step_ok, hevs]
      simp only [MOut.mk.injEq, List.length_cons, List.replicate_succ, List.cons_append,
        List.append_assoc, true_and, and_true]
      omega
    · refine ⟨aevs ++ [checkErrEv m] ++ evs, ?_⟩
      rw [List.cons_append, monitorLoop_step_throws, hevs]
      simp only [MOut.mk.injEq, List.length_cons, List.replicate_succ, List.cons_append,
        List.append_assoc, true_and, and_true]
      omega

theorem monitorLoop_booked_head (cfg : MonitorConfig) (e : IterEnv)
    (rest : List IterEnv) (ha : e.arrival ≠ AbortArrival.beforeAttempt)
    (hb : e.attempt = AttemptRes.ok true) :
    monitorLoop cfg false (e :: rest) =
      ⟨true, .bookedRun, 1, e.attemptEvents ++ [successEv cfg.targetDate], []⟩ := by
  obtain ⟨arr, att, aevs⟩ := e
  simp only at hb
  subst hb
  cases arr <;> simp_all [monitorLoop]

/-! ## C1 — a booked attempt is terminal -/

/-- C1: once an attempt returns `booked: true` (after any number of
continuing iterations), the loop emits the success event and returns
`{ booked: true }` at once — exactly `pre.length + 1` attempts are made,
so no further attempt follows the booked one. -/
theorem c1_booked_terminal (cfg : MonitorConfig) (pre : List IterEnv)
    (e : IterEnv) (rest : List IterEnv)
    (hv : firstMissing cfg = none)
    (hpre : ∀ x ∈ pre, continuesOn x = true)
    (ha : e.arrival ≠ AbortArrival.beforeAttempt)
    (hb : e.attempt = AttemptRes.ok true) :
    (startMonitor cfg false (pre ++ e :: rest)).booked = true ∧
    (startMonitor cfg false (pre ++ e :: rest)).attempts = pre.length + 1 ∧
    successEv cfg.targetDate ∈ (startMonitor cfg false (pre ++ e :: rest)).events := by
  obtain ⟨evs, hevs⟩ := monitorLoop_skip cfg pre (e :: rest) hpre
  rw [monitorLoop_booked_head cfg e rest ha hb] at hevs
  simp [startMonitor, hv, hevs]

theorem c1_booked_terminal_witness :
    (startMonitor cfg0 false [iterNoBook, iterBook]).booked = true ∧
    (startMonitor cfg0 false [iterNoBook, iterBook]).attempts = [iterNoBook].length + 1 ∧
    successEv cfg0.targetDate ∈ (startMonitor cfg0 false [iterNoBook, iterBook]).events :=
  c1_booked_terminal cfg0 [iterNoBook] iterBook [] (by decide) (by decide)
    (by decide) (by decide)

/-! ## C4 — cancellation during a sleep -/

theorem monitorLoop_sleep_abort_head (cfg : MonitorConfig) (e : IterEnv)
    (rest : List IterEnv) (t : Nat)
    (harr : e.arrival = AbortArrival.duringSleep t)
    (hatt : e.attempt = AttemptRes.ok false ∨ ∃ m, e.attempt = AttemptRes.throws m) :
    (monitorLoop cfg false (e :: rest)).booked = false ∧
    (monitorLoop cfg false (e :: rest)).res = RunRes.stopped ∧
    (monitorLoop cfg false (e :: rest)).attempts = 1 ∧
    (monitorLoop cfg false (e :: rest)).sleeps = [min t cfg.intervalMs] := by
  obtain ⟨arr, att, aevs⟩ := e
  simp only at harr
  subst harr
  rcases hatt with h | ⟨m, h⟩ <;> simp only at h <;> subst h <;>
    simp [monitorLoop, waitWithAbort_cut]

/-- C4: if the abort signal fires at time `t` into an inter-attempt sleep
(with `t` less than the configured interval), the `waitWithAbort` promise
resolves at `t` — not after the full interval — and the loop then stops
without starting another attempt. -/
theorem c4_sleep_cancel_prompt (cfg : MonitorConfig) (pre : List IterEnv)
    (e : IterEnv) (rest : List IterEnv) (t : Nat)
    (hv : firstMissing cfg = none)
    (hpre : ∀ x ∈ pre, continuesOn x = true)
    (harr : e.arrival = AbortArrival.duringSleep t)
    (hatt : e.attempt = AttemptRes.ok false ∨ ∃ m, e.attempt = AttemptRes.throws m)
    (ht : t < cfg.intervalMs) :
    (startMonitor cfg false (pre ++ e :: rest)).res = RunRes.stopped ∧
    (startMonitor cfg false (pre ++ e :: rest)).booked = false ∧
    (startMonitor cfg false (pre ++ e :: rest)).attempts = pre.length + 1 ∧
    (startMonitor cfg false (pre ++ e :: rest)).sleeps =
      List.replicate pre.length cfg.intervalMs ++ [t] := by
  obtain ⟨evs, hevs⟩ := monitorLoop_skip cfg pre (e :: rest) hpre
  obtain ⟨hb, hr, hatts, hsl⟩ := monitorLoop_sleep_abort_head cfg e rest t harr hatt
  have hmin : min t cfg.intervalMs = t := Nat.min_eq_left (Nat.le_of_lt ht)
  rw [hmin] at hsl
  simp [startMonitor, hv, hevs, hb, hr, hatts, hsl]

theorem c4_sleep_cancel_prompt_witness :
    (startMonitor cfg0 false [iterNoBook, ⟨AbortArrival.duringSleep 5, AttemptRes.ok false, []⟩]).res
      = RunRes.stopped ∧
    (startMonitor cfg0 false [iterNoBook, ⟨AbortArrival.duringSleep 5, AttemptRes.ok false, []⟩]).booked
      = false ∧
    (startMonitor cfg0 false [iterNoBook, ⟨AbortArrival.duringSleep 5, AttemptRes.ok false, []⟩]).attempts
      = [iterNoBook].length + 1 ∧
    (startMonitor cfg0 false [iterNoBook, ⟨AbortArrival.duringSleep 5, AttemptRes.ok false, []⟩]).sleeps
      = List.replicate [iterNoBook].length cfg0.intervalMs ++ [5] :=
  c4_sleep_cancel_prompt cfg0 [iterNoBook] ⟨AbortArrival.duringSleep 5, AttemptRes.ok false, []⟩
    [] 5 (by decide) (by decide) rfl (Or.inl rfl) (by decide)

/-! ## C10 — signal already aborted at entry -/

/-- C10: for a valid config whose cancellation signal is already aborted
when `startMonitor` is called, the `while` body never runs: no attempt is
made, no sleep happens, only the starting and stop status events are
emitted, and `{ booked: false }` is returned. -/
theorem c10_pre_aborted_no_attempt (cfg : MonitorConfig) (envs : List IterEnv)
    (hv : firstMissing cfg = none) :
    startMonitor cfg true envs =
      ⟨false, .stopped, 0, [startEv cfg.targetDate cfg.intervalMs, stopEv], []⟩ := by
  simp [startMonitor, hv, monitorLoop]

theorem c10_pre_aborted_no_attempt_witness :
    startMonitor cfg0 true [iterBook] =
      ⟨false, .stopped, 0, [startEv cfg0.targetDate cfg0.intervalMs, stopEv], []⟩ :=
  c10_pre_aborted_no_attempt cfg0 [iterBook] (by decide)

/-! ## C9 — confirmation-step classification -/

def c9Env1 : CheckEnv :=
  ⟨false, false, false, false, false, [⟨true, [], none, none, false⟩],
    "Select your date", true, false, false, true,
    "Thank you, your reservation is confirmed"⟩

def c9Env2 : CheckEnv :=
  ⟨false, false, false, false, false, [⟨true, [], none, none, false⟩],
    "Select your date", true, false, false, true, "Something went wrong"⟩

/-- C9: for every attempt that reaches the confirm step (launch succeeded,
no step threw, the calendar did not classify sold-out, the page-wide scan
found nothing, a booking and a confirm affordance are present), a
post-confirm page reading "Thank you, your reservation is confirmed"
yields `{ available: true, booked: true }`, while "Something went wrong"
matches no success phrase and yields `{ available: true, booked: false }`. -/
theorem c9_confirm_step (cfg : MonitorConfig) (env : CheckEnv)
    (h1 : env.launchThrows = false) (h2 : env.setupThrows = false)
    (h3 : env.stepThrows = false)
    (h4 : calRun (dayToken cfg.targetDate) 12 env.views ≠ CalOut.soldOutFound)
    (h5 : soldOutTextMatch env.pageText = false)
    (h6 : env.bookButton = true) (h7 : env.confirmButton = true) :
    (env.confirmText = "Thank you, your reservation is confirmed" →
      (checkAndBook cfg env).res = CheckResult.ok ⟨true, true, none⟩) ∧
    (env.confirmText = "Something went wrong" →
      (checkAndBook cfg env).res = CheckResult.ok ⟨true, false, none⟩) := by
  constructor <;> intro hct <;>
    rw [checkAndBook_res_fallthrough cfg env h1 h2 h3 h4, checkAndBookPost_res] <;>
    simp only [h5, h6, h7, hct] <;> decide

theorem c9_confirm_step_witness :
    (checkAndBook cfg0 c9Env1).res = CheckResult.ok ⟨true, true, none⟩ ∧
    (checkAndBook cfg0 c9Env2).res = CheckResult.ok ⟨true, false, none⟩ :=
  ⟨(c9_confirm_step cfg0 c9Env1 rfl rfl rfl (by decide) (by decide) rfl rfl).1 rfl,
   (c9_confirm_step cfg0 c9Env2 rfl rfl rfl (by decide) (by decide) rfl rfl).2 rfl⟩

/-! ## C5 — re-entrant start calls -/

/-- A trace witnessing the overlap window the code permits: run 1 is
mid-attempt (browser open) when the second `start-monitor` call aborts
controller 1 and immediately launches run 2; run 2 opens its browser while
run 1's attempt (which never consults the signal) is still running, and
run 1 only closes and stops afterwards. -/
def c5Trace : List PEv :=
  [.create1, .launch1, .r1Open, .abort1, .create2, .launch2, .r2Open, .r1Close, .r1Stop]

/-- C5 counterexample: the overlap trace satisfies every ordering
constraint the handler and monitor code impose, yet run 2 opens its
browser before run 1 has stopped — indeed before run 1's browser closes —
so the second run begins attempting before the first fully stops and two
sessions are open concurrently. -/
theorem c5_sessions_overlap :
    validTrace c5Trace = true ∧
    isBefore c5Trace PEv.r1Stop PEv.r2Open = false ∧
    isBefore c5Trace PEv.r1Open PEv.r2Open = true ∧
    isBefore c5Trace PEv.r2Open PEv.r1Close = true := by
  decide

/-- C5 (amended): in every trace consistent with the code, the second call
does request cancellation of the prior run (`abort()`, line 241) before it
launches the new monitor run (line 275); but nothing makes it wait for the
prior loop to stop (see the counterexample trace). -/
theorem c5_abort_precedes_relaunch (tr : List PEv) (h : validTrace tr = true) :
    isBefore tr PEv.abort1 PEv.launch2 = true := by
  simp only [validTrace, isBefore, Bool.and_eq_true, decide_eq_true_eq] at h
  simp only [isBefore, decide_eq_true_eq]
  omega

theorem c5_abort_precedes_relaunch_witness :
    isBefore c5Trace PEv.abort1 PEv.launch2 = true :=
  c5_abort_precedes_relaunch c5Trace (by decide)
